import Mathlib

/-!
Verification of the agent-simulation core of the ball-eating-simulator
repository.  The JavaScript source (Ball.js, BallAI.js, PowerUp.js,
PowerUpEffects, game.js, utils.js) is shallowly embedded: JS numbers are
modelled as real numbers, THREE.Vector3 as a record of three reals,
object identity as an explicit numeric id, and every wall-clock or
random input as an explicit parameter.  Purely cosmetic code (meshes,
cameras, DOM) is out of scope, exactly as the specification declares.
-/

namespace BallSim

/-- Embedding of THREE.Vector3: three real coordinates. -/
structure Vec3 where
  x : ℝ
  y : ℝ
  z : ℝ

namespace Vec3

/-- Vector addition (THREE.Vector3.add). -/
def add (a b : Vec3) : Vec3 := ⟨a.x + b.x, a.y + b.y, a.z + b.z⟩

/-- Vector subtraction (THREE.Vector3.sub). -/
def sub (a b : Vec3) : Vec3 := ⟨a.x - b.x, a.y - b.y, a.z - b.z⟩

/-- Scalar multiplication (THREE.Vector3.multiplyScalar). -/
def scale (a : Vec3) (c : ℝ) : Vec3 := ⟨a.x * c, a.y * c, a.z * c⟩

/-- Euclidean length (THREE.Vector3.length). -/
noncomputable def length (a : Vec3) : ℝ :=
  Real.sqrt (a.x ^ 2 + a.y ^ 2 + a.z ^ 2)

/-- Distance between two points (THREE.Vector3.distanceTo). -/
noncomputable def distanceTo (a b : Vec3) : ℝ := (a.sub b).length

/-- THREE.Vector3.normalize: divides by the length, or by 1 when the
length is zero (`divideScalar(this.length() || 1)`), so the zero vector
is left unchanged. -/
noncomputable def normalize (a : Vec3) : Vec3 :=
  a.scale (1 / (if a.length = 0 then 1 else a.length))

end Vec3

/-- Embedding of the PowerUpEffects component attached to each ball
(fields as initialised in its constructor). -/
structure PowerUpEffects where
  speedMultiplier : ℝ
  sizeMultiplier : ℝ
  targetRadius : Option ℝ
  baseRadius : Option ℝ
  growthSpeed : ℝ

/-- PowerUpEffects constructor state. -/
def PowerUpEffects.init : PowerUpEffects :=
  { speedMultiplier := 1
    sizeMultiplier := 1
    targetRadius := none
    baseRadius := none
    growthSpeed := 0.1 }

/-- PowerUpEffects.setSpeedBoost: overwrites the speed multiplier. -/
def PowerUpEffects.setSpeedBoost (e : PowerUpEffects) (multiplier : ℝ) :
    PowerUpEffects :=
  { e with speedMultiplier := multiplier }

/-- PowerUpEffects.setSizeBoost(multiplier, currentRadius, baseRadius):
for a revert request (multiplier = 1) it sets the target back to the
passed base radius when the ball is boosted more than 10% above it;
otherwise it snapshots the current radius as the new base and targets
`currentRadius * multiplier`.  Always records the multiplier and resets
the growth speed. -/
noncomputable def PowerUpEffects.setSizeBoost (e : PowerUpEffects)
    (multiplier currentRadius baseRadius : ℝ) : PowerUpEffects :=
  let e1 :=
    if multiplier = 1 then
      (if currentRadius / baseRadius > 1.1 then
        { e with targetRadius := some baseRadius }
      else e)
    else
      { e with baseRadius := some currentRadius
               targetRadius := some (currentRadius * multiplier) }
  { e1 with sizeMultiplier := multiplier, growthSpeed := 0.1 }

/-- PowerUpEffects.updateBaseRadius (called from Ball.grow). -/
def PowerUpEffects.updateBaseRadius (e : PowerUpEffects) (radius : ℝ) :
    PowerUpEffects :=
  { e with baseRadius := some radius }

/-- Embedding of the Ball class: the simulation-relevant fields of its
constructor.  Object identity (used by the AI scans through `===`) is
modelled by the explicit `id`; rendering state is omitted. -/
structure Ball where
  id : ℕ
  position : Vec3
  velocity : Vec3
  velocityY : ℝ
  isJumping : Bool
  radius : ℝ
  baseRadius : ℝ
  mass : ℝ
  isPlayer : Bool
  powerUpEffects : PowerUpEffects

namespace Ball

/-- Ball.canEat: `this.radius > otherBall.radius * 1.0`. -/
def canEat (b other : Ball) : Prop := b.radius > other.radius * 1.0

noncomputable instance : ∀ b other : Ball, Decidable (canEat b other) :=
  fun b other => by unfold canEat; infer_instance

/-- Ball.grow(amount): adds to the radius, recomputes the mass from the
new radius and the *old* base radius, then advances `baseRadius` (and
the effects component's base) to the new radius. -/
noncomputable def grow (b : Ball) (amount : ℝ) : Ball :=
  let newRadius := b.radius + amount
  { b with radius := newRadius
           mass := (newRadius / b.baseRadius) ^ 3
           baseRadius := newRadius
           powerUpEffects := b.powerUpEffects.updateBaseRadius newRadius }

/-- Ball.eat(otherBall): grows by half the eaten ball's volume (via the
cube root of the combined volume) and returns `floor(other.radius*10)`
points. -/
noncomputable def eat (b other : Ball) : Ball × ℤ :=
  let volumeGained := other.radius ^ 3 * 0.5
  let newVolume := b.radius ^ 3 + volumeGained
  let newRadius := newVolume ^ ((1 : ℝ) / 3)
  (b.grow (newRadius - b.radius), ⌊other.radius * 10⌋)

/-- Ball.distanceTo. -/
noncomputable def distanceTo (b other : Ball) : ℝ :=
  b.position.distanceTo other.position

/-- Ball.isColliding: centre distance strictly below the radius sum. -/
noncomputable def isColliding (b other : Ball) : Prop :=
  b.distanceTo other < b.radius + other.radius

noncomputable instance : ∀ b other : Ball, Decidable (isColliding b other) :=
  fun b other => by unfold isColliding; infer_instance

/-- Ball.applyForce: scales the force by the speed multiplier, adds it
to the velocity, and clamps the speed to the boosted maximum (base max
30 for the player, 20 for AI balls). -/
noncomputable def applyForce (b : Ball) (force : Vec3) : Ball :=
  let speedMultiplier := b.powerUpEffects.speedMultiplier
  let adjustedForce := force.scale speedMultiplier
  let v := b.velocity.add adjustedForce
  let baseMaxSpeed : ℝ := if b.isPlayer then 30 else 20
  let maxSpeed := baseMaxSpeed * speedMultiplier
  if v.length > maxSpeed then
    { b with velocity := v.normalize.scale maxSpeed }
  else
    { b with velocity := v }

/-- Arena half-width used by the boundary constraint in
Ball.applyPhysics. -/
def boundaryLimit : ℝ := 250

/-- The damping step of Ball.applyPhysics: the player's velocity decays
by 0.97 per tick, AI velocities by 0.95. -/
def dampingStep (b : Ball) : Ball :=
  let dampingFactor : ℝ := if b.isPlayer then 0.97 else 0.95
  { b with velocity := b.velocity.scale dampingFactor }

/-- The vertical step of Ball.applyPhysics: while jumping, integrate
gravity and land once `y` reaches the radius; otherwise pin the ball to
the flat ground at `y = radius`. -/
noncomputable def gravityStep (b : Ball) (deltaTime : ℝ) : Ball :=
  if b.isJumping then
    let vy := b.velocityY - 300 * deltaTime
    let y := b.position.y + vy * deltaTime
    if y ≤ b.radius then
      { b with position := { b.position with y := b.radius }
               velocityY := 0
               isJumping := false }
    else
      { b with position := { b.position with y := y }, velocityY := vy }
  else
    { b with position := { b.position with y := b.radius } }

/-- The boundary step of Ball.applyPhysics: clamp `x` and `z` to the
arena half-width and flip-and-dampen the matching velocity component by
`-0.8`. -/
noncomputable def boundaryStep (b : Ball) : Ball :=
  let b1 :=
    if |b.position.x| > boundaryLimit then
      { b with position := { b.position with
                               x := Real.sign b.position.x * boundaryLimit }
               velocity := { b.velocity with x := b.velocity.x * (-0.8) } }
    else b
  if |b1.position.z| > boundaryLimit then
    { b1 with position := { b1.position with
                              z := Real.sign b1.position.z * boundaryLimit }
              velocity := { b1.velocity with z := b1.velocity.z * (-0.8) } }
  else b1

/-- Ball.applyPhysics: damping, then vertical handling, then the
boundary constraint — all before the tick's position integration. -/
noncomputable def applyPhysics (b : Ball) (deltaTime : ℝ) : Ball :=
  boundaryStep (gravityStep (dampingStep b) deltaTime)

/-- PowerUpEffects.updateSizeAnimation lifted to the ball it mutates:
while a target radius is pending and more than 0.01 away, move the
radius a `growthSpeed` fraction of the gap (the mass is not touched). -/
noncomputable def updateSizeAnimation (b : Ball) : Ball :=
  match b.powerUpEffects.targetRadius with
  | none => b
  | some target =>
    if |b.radius - target| > 0.01 then
      { b with radius := b.radius + (target - b.radius) * b.powerUpEffects.growthSpeed }
    else b

/-- Ball.update(deltaTime): physics first, then horizontal integration
of the position by the post-physics velocity, then the size-boost
animation (mesh, rotation and skin updates are cosmetic and omitted). -/
noncomputable def update (b : Ball) (deltaTime : ℝ) : Ball :=
  let b1 := b.applyPhysics deltaTime
  let horizontalVelocity : Vec3 := ⟨b1.velocity.x, 0, b1.velocity.z⟩
  let b2 := { b1 with position := b1.position.add (horizontalVelocity.scale deltaTime) }
  updateSizeAnimation b2

/-- Ball.setSpeedBoost: delegates to the effects component. -/
def setSpeedBoost (b : Ball) (multiplier : ℝ) : Ball :=
  { b with powerUpEffects := b.powerUpEffects.setSpeedBoost multiplier }

/-- Ball.setSizeBoost: delegates to the effects component, passing the
ball's current radius and base radius. -/
noncomputable def setSizeBoost (b : Ball) (multiplier : ℝ) : Ball :=
  { b with powerUpEffects :=
      b.powerUpEffects.setSizeBoost multiplier b.radius b.baseRadius }

/-- The Ball constructor `new Ball(x, y, z, radius, ...)`: zero
velocity, base radius equal to the radius, unit mass, not the player.
The random string id of the source is the explicit `id` argument. -/
def create (id : ℕ) (x y z radius : ℝ) : Ball :=
  { id := id
    position := ⟨x, y, z⟩
    velocity := ⟨0, 0, 0⟩
    velocityY := 0
    isJumping := false
    radius := radius
    baseRadius := radius
    mass := 1
    isPlayer := false
    powerUpEffects := PowerUpEffects.init }

end Ball

/-! ### BallAI (BallAI.js)

The behaviour parameters are the constructor defaults; game.js never
calls `updateBehaviorParameters`, so they stay fixed.  The `===`
self-comparison of the JS scans is modelled by comparing ids, and the
`Infinity` sentinels by `⊤ : WithTop ℝ`. -/

namespace BallAI

/-- Seek force applied when hunting an ideal target. -/
def seekForce : ℝ := 2.2

/-- Avoid force applied when fleeing the nearest threat. -/
def avoidForce : ℝ := 2.0

/-- Magnitude scale of the random-walk impulse. -/
def randomForce : ℝ := 1.0

/-- Per-tick probability of a random-walk impulse. -/
def randomWalkChance : ℝ := 0.2

/-- Radius within which a larger ball counts as a threat. -/
def threatRange : ℝ := 60

/-- Radius within which eatable balls qualify as ideal targets. -/
def idealTargetRange : ℝ := 100

/-- Loop of BallAI.findNearestThreat: keeps the closest ball that can
eat this one among those closer than both the incumbent distance and
the threat range. -/
noncomputable def findNearestThreatGo (ball : Ball) :
    List Ball → Option Ball → WithTop ℝ → Option Ball
  | [], nearestThreat, _ => nearestThreat
  | otherBall :: rest, nearestThreat, nearestDistance =>
    if otherBall.id = ball.id ∨ ¬ otherBall.canEat ball then
      findNearestThreatGo ball rest nearestThreat nearestDistance
    else
      let distance := ball.distanceTo otherBall
      if (distance : WithTop ℝ) < nearestDistance ∧ distance < threatRange then
        findNearestThreatGo ball rest (some otherBall) (distance : WithTop ℝ)
      else
        findNearestThreatGo ball rest nearestThreat nearestDistance

/-- BallAI.findNearestThreat. -/
noncomputable def findNearestThreat (ball : Ball) (allBalls : List Ball) :
    Option Ball :=
  findNearestThreatGo ball allBalls none ⊤

/-- Loop of BallAI.findIdealTarget: a candidate replaces the incumbent
when its radius beats the recorded largest, or lies within 0.1 of it
and is strictly closer than the recorded shortest distance. -/
noncomputable def findIdealTargetGo (ball : Ball) :
    List Ball → Option Ball → ℝ → WithTop ℝ → Option Ball
  | [], idealTarget, _, _ => idealTarget
  | otherBall :: rest, idealTarget, largestEatableSize, shortestDistance =>
    if otherBall.id = ball.id ∨ ¬ ball.canEat otherBall then
      findIdealTargetGo ball rest idealTarget largestEatableSize shortestDistance
    else
      let distance := ball.distanceTo otherBall
      if distance > idealTargetRange then
        findIdealTargetGo ball rest idealTarget largestEatableSize shortestDistance
      else if otherBall.radius > largestEatableSize ∨
          (|otherBall.radius - largestEatableSize| < 0.1 ∧
            (distance : WithTop ℝ) < shortestDistance) then
        findIdealTargetGo ball rest (some otherBall) otherBall.radius
          (distance : WithTop ℝ)
      else
        findIdealTargetGo ball rest idealTarget largestEatableSize shortestDistance

/-- BallAI.findIdealTarget. -/
noncomputable def findIdealTarget (ball : Ball) (allBalls : List Ball) :
    Option Ball :=
  findIdealTargetGo ball allBalls none 0 ⊤

/-- BallAI.randomWalk, with the two `Math.random()` draws passed in. -/
noncomputable def randomWalk (ball : Ball) (rx rz : ℝ) : Ball :=
  ball.applyForce ⟨(rx - 0.5) * randomForce, 0, (rz - 0.5) * randomForce⟩

/-- BallAI.seekTarget: force of magnitude `seekForce` along the
normalized offset towards the target. -/
noncomputable def seekTarget (ball target : Ball) : Ball :=
  ball.applyForce ((target.position.sub ball.position).normalize.scale seekForce)

/-- BallAI.avoidThreat: force of magnitude `avoidForce` along the
normalized offset away from the threat. -/
noncomputable def avoidThreat (ball threat : Ball) : Ball :=
  ball.applyForce ((ball.position.sub threat.position).normalize.scale avoidForce)

end BallAI

/-- The per-enemy body of Game.updateAI: flee the nearest threat,
otherwise hunt the ideal target, otherwise random-walk with probability
0.2 (the `Math.random()` draw is the `rand` parameter), otherwise do
nothing. -/
noncomputable def updateAIBall (ball : Ball) (allBalls : List Ball)
    (rand rx rz : ℝ) : Ball :=
  match BallAI.findNearestThreat ball allBalls with
  | some nearestThreat => BallAI.avoidThreat ball nearestThreat
  | none =>
    match BallAI.findIdealTarget ball allBalls with
    | some idealTarget => BallAI.seekTarget ball idealTarget
    | none =>
      if rand < BallAI.randomWalkChance then BallAI.randomWalk ball rx rz
      else ball

/-! ### PowerUp registry (PowerUp.js)

Wall-clock reads (`Date.now()`) are passed in as explicit `now`
parameters.  The cosmetic display name and colour of each catalog entry
are omitted; the `type` tag is the enum the logic branches on. -/

/-- The power-up type tags of the catalog in PowerUpManager. -/
inductive PUType where
  | speed
  | size
  | pacman
  | saturn
  | earth
  | tryagain
deriving DecidableEq

/-- The three cosmetic skin types. -/
def skinTypes : List PUType := [PUType.pacman, PUType.saturn, PUType.earth]

/-- Whether a type tag is a cosmetic skin
(`['pacman','saturn','earth'].includes(type)`). -/
def isSkinType (t : PUType) : Bool := skinTypes.contains t

/-- Embedding of the PowerUp class (the random display id is omitted). -/
structure PowerUp where
  type : PUType
  duration : ℝ
  startTime : ℝ
  active : Bool

/-- PowerUp constructor with the default 30000 ms duration. -/
def PowerUp.create (type : PUType) (now : ℝ) : PowerUp :=
  { type := type, duration := 30000, startTime := now, active := true }

/-- PowerUp.isExpired at wall-clock time `now`. -/
def PowerUp.isExpired (p : PowerUp) (now : ℝ) : Prop :=
  now - p.startTime ≥ p.duration

noncomputable instance : ∀ (p : PowerUp) (now : ℝ), Decidable (p.isExpired now) :=
  fun p now => by unfold PowerUp.isExpired; infer_instance

/-- A catalog entry of PowerUpManager.powerUpTypes (type and weight;
name and colour are cosmetic). -/
structure PowerUpEntry where
  type : PUType
  weight : ℝ

/-- Embedding of PowerUpManager. -/
structure PowerUpManager where
  activePowerUps : List PowerUp

/-- PowerUpManager constructor state: no active power-ups. -/
def PowerUpManager.init : PowerUpManager := { activePowerUps := [] }

/-- The fixed weighted catalog of PowerUpManager.powerUpTypes. -/
def powerUpTypes : List PowerUpEntry :=
  [⟨PUType.speed, 1⟩, ⟨PUType.size, 1⟩, ⟨PUType.pacman, 1⟩,
   ⟨PUType.saturn, 1⟩, ⟨PUType.earth, 1⟩, ⟨PUType.tryagain, 1⟩]

/-- The scan of PowerUpManager.spinForPowerUp: subtract each weight
from the running draw and return the first entry that drives it to or
below zero. -/
noncomputable def spinScan (random : ℝ) : List PowerUpEntry → Option PowerUpEntry
  | [] => none
  | powerUp :: rest =>
    if random - powerUp.weight ≤ 0 then some powerUp
    else spinScan (random - powerUp.weight) rest

/-- PowerUpManager.spinForPowerUp with the scaled random draw passed
in: the weighted scan, falling back to the last catalog entry. -/
noncomputable def spinForPowerUp (random : ℝ) : PowerUpEntry :=
  match spinScan random powerUpTypes with
  | some powerUp => powerUp
  | none => powerUpTypes.getLast (by simp [powerUpTypes])

/-- PowerUpManager.addPowerUp at wall-clock time `now`: a `tryagain`
grant is a no-op returning null; a skin grant first evicts every active
skin; the new power-up is appended and returned. -/
def PowerUpManager.addPowerUp (m : PowerUpManager) (type : PUType) (now : ℝ) :
    PowerUpManager × Option PowerUp :=
  if type = PUType.tryagain then
    (m, none)
  else
    let base :=
      if isSkinType type then
        m.activePowerUps.filter (fun p => ¬ isSkinType p.type)
      else m.activePowerUps
    let powerUp := PowerUp.create type now
    ({ activePowerUps := base ++ [powerUp] }, some powerUp)

/-- PowerUpManager.update at wall-clock time `now`: drop expired
power-ups. -/
noncomputable def PowerUpManager.update (m : PowerUpManager) (now : ℝ) :
    PowerUpManager :=
  { activePowerUps := m.activePowerUps.filter (fun p => ¬ p.isExpired now) }

/-- An operation against the power-up registry: a grant or an expiry
sweep, each stamped with the wall-clock time at which it runs. -/
inductive PUOp where
  | grant (type : PUType) (now : ℝ)
  | sweep (now : ℝ)

/-- Apply one registry operation. -/
noncomputable def applyPUOp (m : PowerUpManager) : PUOp → PowerUpManager
  | PUOp.grant type now => (m.addPowerUp type now).1
  | PUOp.sweep now => m.update now

/-- Apply a sequence of registry operations in order. -/
noncomputable def applyPUOps (m : PowerUpManager) (ops : List PUOp) :
    PowerUpManager :=
  ops.foldl applyPUOp m

/-- Number of active skin power-ups in the registry. -/
def PowerUpManager.skinCount (m : PowerUpManager) : ℕ :=
  (m.activePowerUps.filter (fun p => isSkinType p.type)).length

/-! ### Arena / simulation loop (game.js, utils.js)

The Game's simulation state is the player, the enemy list, the score,
the game-over flag and the last-spawn timestamp.  All randomness
(AI draws, spawn positions/sizes) and the wall clock are explicit tick
inputs; rendering, camera and DOM work is omitted. -/

/-- utils.calculateSpawnRate: spawn cooldown in ms, shrinking with the
score and floored at 500. -/
def calculateSpawnRate (score : ℤ) : ℤ :=
  max 500 (2000 - score.fdiv 100 * 100)

/-- utils.calculateMaxEnemies: enemy cap, growing with the score and
capped at 100. -/
def calculateMaxEnemies (score : ℤ) : ℤ :=
  min (50 + score.fdiv 200) 100

/-- Embedding of the Game simulation state. -/
structure GameState where
  player : Option Ball
  enemies : List Ball
  score : ℤ
  gameOver : Bool
  lastSpawnTime : ℝ

/-- The player-versus-enemies pass of Game.checkCollisions, which walks
the enemy array from the highest index down.  The argument list is the
enemy list reversed (head = highest index).  Returns the (possibly
grown) player, the surviving enemies still in reversed order, the
updated score, and whether the fatal-collision path fired. -/
noncomputable def playerPassRev (p : Ball) : List Ball → ℤ → Ball × List Ball × ℤ × Bool
  | [], score => (p, [], score, false)
  | enemy :: rest, score =>
    if p.isColliding enemy then
      if p.canEat enemy then
        let eaten := p.eat enemy
        playerPassRev eaten.1 rest (score + eaten.2)
      else if enemy.canEat p then
        (p, enemy :: rest, score, true)
      else
        let r := playerPassRev p rest score
        (r.1, enemy :: r.2.1, r.2.2)
    else
      let r := playerPassRev p rest score
      (r.1, enemy :: r.2.1, r.2.2)

/-- The inner loop of the enemy-versus-enemy pass: the current enemy at
index `i` against the enemies below it (passed reversed, head = index
`i - 1`).  Returns the surviving current enemy (none when it was eaten
and the loop broke) and the remaining lower enemies, still reversed. -/
noncomputable def enemyInnerRev (enemy : Ball) : List Ball → Option Ball × List Ball
  | [] => (some enemy, [])
  | otherEnemy :: rest =>
    if enemy.isColliding otherEnemy then
      if enemy.canEat otherEnemy then
        enemyInnerRev (enemy.eat otherEnemy).1 rest
      else if otherEnemy.canEat enemy then
        (none, ((otherEnemy.eat enemy).1) :: rest)
      else
        let r := enemyInnerRev enemy rest
        (r.1, otherEnemy :: r.2)
    else
      let r := enemyInnerRev enemy rest
      (r.1, otherEnemy :: r.2)

/-- The inner loop never lengthens the lower enemy list (it only
removes eaten enemies or rewrites one in place); this bounds the outer
loop's recursion. -/
theorem enemyInnerRev_length_le (enemy : Ball) (l : List Ball) :
    (enemyInnerRev enemy l).2.length ≤ l.length := by
  induction l generalizing enemy with
  | nil => simp [enemyInnerRev]
  | cons otherEnemy rest ih =>
    unfold enemyInnerRev
    split
    · split
      · exact le_trans (ih _) (Nat.le_succ _)
      · split
        · simp
        · simpa using ih enemy
    · simpa using ih enemy

/-- The outer loop of the enemy-versus-enemy pass over the enemy list
in reversed order (head = highest index): each enemy fights everything
below it, with mid-pass removals excluded from further comparisons. -/
noncomputable def enemyPassRev : List Ball → List Ball
  | [] => []
  | enemy :: lower =>
    let r := enemyInnerRev enemy lower
    match r.1 with
    | some survivor => survivor :: enemyPassRev r.2
    | none => enemyPassRev r.2
termination_by l => l.length
decreasing_by
  all_goals
    simp only [List.length_cons]
    exact Nat.lt_succ_of_le (enemyInnerRev_length_le _ _)

/-- Game.checkCollisions: nothing on game over or without a player;
otherwise the player-versus-enemies pass (an enemy that can eat the
player ends the game at once, skipping everything that remains),
followed by the enemy-versus-enemy pass. -/
noncomputable def checkCollisions (st : GameState) : GameState :=
  if st.gameOver then st
  else
    match st.player with
    | none => st
    | some p =>
      let r := playerPassRev p st.enemies.reverse st.score
      if r.2.2.2 then
        { st with player := some r.1, enemies := r.2.1.reverse,
                  score := r.2.2.1, gameOver := true }
      else
        { st with player := some r.1, enemies := (enemyPassRev r.2.1).reverse,
                  score := r.2.2.1 }

/-- The random inputs and wall-clock reading consumed by one tick. -/
structure TickInputs where
  controlForce : Option Vec3
  aiRand : ℕ → ℝ
  aiRx : ℕ → ℝ
  aiRz : ℕ → ℝ
  now : ℝ
  spawnBall : Ball

/-- Game.handleInput, reduced to its simulation effect: an input force
is applied to the player (camera rotation is cosmetic). -/
noncomputable def handleInput (st : GameState) (inp : TickInputs) : GameState :=
  if st.gameOver then st
  else
    match st.player, inp.controlForce with
    | some p, some force => { st with player := some (p.applyForce force) }
    | _, _ => st

/-- Game.updateAI: each enemy decides against the pre-tick ball list
`[player, ...enemies]` (applied forces only change the decider's own
velocity, never the positions or radii the scans read). -/
noncomputable def updateAIStep (st : GameState) (inp : TickInputs) : GameState :=
  match st.player with
  | none => st
  | some p =>
    let allBalls := p :: st.enemies
    let decideFor : ℕ × Ball → Ball := fun e =>
      updateAIBall e.2 allBalls (inp.aiRand e.1) (inp.aiRx e.1) (inp.aiRz e.1)
    { st with enemies := st.enemies.enum.map decideFor }

/-- Game.spawnEnemies: admit the provided random enemy when the
score-dependent cooldown has elapsed and the population is below the
score-dependent cap. -/
noncomputable def spawnEnemies (st : GameState) (inp : TickInputs) : GameState :=
  if inp.now - st.lastSpawnTime > (calculateSpawnRate st.score : ℝ) ∧
      (st.enemies.length : ℤ) < calculateMaxEnemies st.score then
    { st with enemies := st.enemies ++ [inp.spawnBall], lastSpawnTime := inp.now }
  else st

/-- The fixed simulation time step of Game.animate. -/
noncomputable def tickDeltaTime : ℝ := 1 / 60

/-- The body of one simulation tick of Game.animate: input, physics
update of the player and every enemy, AI decisions, collision
resolution, spawn control. -/
noncomputable def stepTick (st : GameState) (inp : TickInputs) : GameState :=
  let st1 := handleInput st inp
  let st2 := { st1 with player := st1.player.map (Ball.update · tickDeltaTime) }
  let st3 := { st2 with enemies := st2.enemies.map (Ball.update · tickDeltaTime) }
  let st4 := updateAIStep st3 inp
  let st5 := checkCollisions st4
  spawnEnemies st5 inp

/-- Game.animate's simulation effect: on game over the whole tick body
is skipped (only rendering continues). -/
noncomputable def tick (st : GameState) (inp : TickInputs) : GameState :=
  if st.gameOver then st else stepTick st inp

/-- The player created by Game.createPlayer: radius 15 at the origin,
flagged as the controlled ball. -/
def initialPlayer : Ball :=
  { id := 0
    position := ⟨0, 0, 0⟩
    velocity := ⟨0, 0, 0⟩
    velocityY := 0
    isJumping := false
    radius := 15
    baseRadius := 15
    mass := 1
    isPlayer := true
    powerUpEffects := PowerUpEffects.init }

/-- Game.restart: destroy every enemy, reset score, clear the game-over
flag and the spawn timer, recreate the player and re-seed the initial
population.  The randomized initial population of spawnInitialEnemies
is the explicit `seedEnemies` parameter. -/
def restart (_st : GameState) (seedEnemies : List Ball) : GameState :=
  { player := some initialPlayer
    enemies := seedEnemies
    score := 0
    gameOver := false
    lastSpawnTime := 0 }

/-! ## Theorems -/

/-- C5: `canEat` holds exactly when the eater's radius strictly exceeds
the other's; hence it is asymmetric, and equal radii can consume in
neither direction. -/
theorem canEat_strict_asymmetric (a b : Ball) :
    (a.canEat b ↔ a.radius > b.radius) ∧
    (a.canEat b → ¬ b.canEat a) ∧
    (a.radius = b.radius → ¬ a.canEat b ∧ ¬ b.canEat a) := by
  have h10 : ∀ x : ℝ, x * 1.0 = x := fun x => by norm_num
  simp only [Ball.canEat, h10]
  refine ⟨by trivial, fun h h2 => lt_asymm h h2,
    fun h => ⟨by simp [h], by simp [h]⟩⟩

/-- Concrete check of C5: a radius-6 ball cannot eat a radius-10 ball
it is smaller than. -/
theorem canEat_strict_asymmetric_witness :
    ¬ (Ball.create 2 0 0 0 6).canEat (Ball.create 1 0 0 0 10) :=
  (canEat_strict_asymmetric (Ball.create 1 0 0 0 10) (Ball.create 2 0 0 0 6)).2.1
    (by simp [Ball.canEat, Ball.create]; norm_num)

/-- The weighted scan only ever returns entries of the list it scans. -/
theorem spinScan_mem (l : List PowerUpEntry) :
    ∀ (random : ℝ) (p : PowerUpEntry), spinScan random l = some p → p ∈ l := by
  induction l with
  | nil => intro r p h; simp [spinScan] at h
  | cons q rest ih =>
    intro r p h
    unfold spinScan at h
    by_cases hc : r - q.weight ≤ 0
    · rw [if_pos hc] at h
      cases h
      exact List.mem_cons_self q rest
    · rw [if_neg hc] at h
      exact List.mem_cons_of_mem _ (ih _ _ h)

/-- C10: the weighted spin is total — whatever the random draw, the
selected entry (scan hit or last-entry fallback) belongs to the fixed
power-up catalog. -/
theorem spinForPowerUp_total (random : ℝ) :
    spinForPowerUp random ∈ powerUpTypes := by
  unfold spinForPowerUp
  split
  · next p h => exact spinScan_mem _ _ _ h
  · next h => exact List.getLast_mem _

/-- C4 (amended): `grow` sets the mass to `(newRadius / oldBase)^3`
computed against the base radius from before the call, and then
advances `baseRadius` to the new radius; a size-animation step moves
the radius without recomputing mass or base. -/
theorem grow_mass_from_old_base (b : Ball) (amount : ℝ) :
    (b.grow amount).radius = b.radius + amount ∧
    (b.grow amount).mass = ((b.radius + amount) / b.baseRadius) ^ 3 ∧
    (b.grow amount).baseRadius = b.radius + amount ∧
    b.updateSizeAnimation.mass = b.mass ∧
    b.updateSizeAnimation.baseRadius = b.baseRadius := by
  refine ⟨rfl, rfl, rfl, ?_, ?_⟩ <;>
    · unfold Ball.updateSizeAnimation
      cases b.powerUpEffects.targetRadius
      · rfl
      · dsimp only
        split <;> rfl

/-- Counterexample to C4 as stated: after a natural growth of 5 from
radius 10, the mass is `(15/10)^3 = 3.375` while
`(radius/baseRadius)^3 = 1`; and a size-boost animation step towards a
target of 20 moves the radius to 11 while the mass stays 1, so the
invariant `mass = (radius/baseRadius)^3` fails after both kinds of
radius change. -/
theorem mass_invariant_counterexample :
    (¬ ((Ball.create 1 0 0 0 10).grow 5).mass =
        (((Ball.create 1 0 0 0 10).grow 5).radius /
          ((Ball.create 1 0 0 0 10).grow 5).baseRadius) ^ 3) ∧
    (¬ ({ Ball.create 2 0 0 0 10 with
            powerUpEffects :=
              { PowerUpEffects.init with targetRadius := some 20 } } :
              Ball).updateSizeAnimation.mass =
        ((({ Ball.create 2 0 0 0 10 with
              powerUpEffects :=
                { PowerUpEffects.init with targetRadius := some 20 } } :
                Ball).updateSizeAnimation.radius) /
          (({ Ball.create 2 0 0 0 10 with
              powerUpEffects :=
                { PowerUpEffects.init with targetRadius := some 20 } } :
                Ball).updateSizeAnimation.baseRadius)) ^ 3) := by
  constructor
  · simp only [Ball.grow, Ball.create, PowerUpEffects.init,
      PowerUpEffects.updateBaseRadius]
    norm_num
  · simp only [Ball.updateSizeAnimation, Ball.create, PowerUpEffects.init]
    norm_num

/-- C1: eating a strictly smaller ball of positive radius gives a new
radius cubing to `r1^3 + 0.5 * r2^3` (it is the real cube root of that
combined volume) and awards exactly `floor(r2 * 10)` points. -/
theorem eat_half_volume_and_points (b other : Ball)
    (hpos : 0 < other.radius) (hlt : other.radius < b.radius) :
    (b.eat other).1.radius ^ 3 = b.radius ^ 3 + 0.5 * other.radius ^ 3 ∧
    (b.eat other).1.radius
      = (b.radius ^ 3 + other.radius ^ 3 * 0.5) ^ ((1 : ℝ) / 3) ∧
    (b.eat other).2 = ⌊other.radius * 10⌋ := by
  have hradius : (b.eat other).1.radius
      = (b.radius ^ 3 + other.radius ^ 3 * 0.5) ^ ((1 : ℝ) / 3) := by
    simp only [Ball.eat, Ball.grow]
    ring
  have hb : 0 < b.radius := lt_trans hpos hlt
  have hX : (0 : ℝ) ≤ b.radius ^ 3 + other.radius ^ 3 * 0.5 := by
    nlinarith [pow_pos hpos 3, pow_pos hb 3]
  refine ⟨?_, hradius, rfl⟩
  rw [hradius, ← Real.rpow_natCast
    ((b.radius ^ 3 + other.radius ^ 3 * 0.5) ^ ((1 : ℝ) / 3)) 3,
    ← Real.rpow_mul hX]
  norm_num
  ring

/-- Concrete check of C1: a radius-15 ball eating a radius-6 ball ends
with radius cubing to `15^3 + 0.5*6^3 = 3483` and awards 60 points. -/
theorem eat_half_volume_and_points_witness :
    ((Ball.create 1 0 0 0 15).eat (Ball.create 2 0 0 0 6)).1.radius ^ 3 = 3483 ∧
    ((Ball.create 1 0 0 0 15).eat (Ball.create 2 0 0 0 6)).2 = 60 := by
  have h := eat_half_volume_and_points (Ball.create 1 0 0 0 15)
    (Ball.create 2 0 0 0 6) (by norm_num [Ball.create]) (by norm_num [Ball.create])
  have h1 := h.1
  have h2 := h.2.2
  norm_num [Ball.create] at h1 h2
  exact ⟨h1, h2⟩

/-- C3 (amended): at the agent level a repeated grant replaces the
prior multiplier instead of compounding it — re-granting Size with
multiplier `m` before the radius moves keeps the target at
`radius * m` (not `radius * m^2`), and a Speed re-grant overwrites the
multiplier so that two grants in a row equal the second alone. -/
theorem powerUp_multiplier_replaces (b : Ball) (e : PowerUpEffects) (m m2 : ℝ)
    (hm : m ≠ 1) :
    ((b.setSizeBoost m).setSizeBoost m).powerUpEffects.targetRadius
      = some (b.radius * m) ∧
    ((b.setSizeBoost m).setSizeBoost m).powerUpEffects.sizeMultiplier = m ∧
    (e.setSpeedBoost m).setSpeedBoost m2 = e.setSpeedBoost m2 := by
  refine ⟨?_, ?_, rfl⟩ <;>
    simp [Ball.setSizeBoost, PowerUpEffects.setSizeBoost, if_neg hm]

/-- Concrete check of C3's amended statement: two Size(1.5) grants on a
radius-10 ball target radius 15, not 22.5. -/
theorem powerUp_multiplier_replaces_witness :
    (((Ball.create 1 0 0 0 10).setSizeBoost 1.5).setSizeBoost
        1.5).powerUpEffects.targetRadius = some 15 := by
  have h := (powerUp_multiplier_replaces (Ball.create 1 0 0 0 10)
    PowerUpEffects.init 1.5 2 (by norm_num)).1
  rw [h]
  norm_num [Ball.create]

/-- Counterexample to C3 as stated: granting Speed twice leaves TWO
live speed records in the power-up registry (the manager only evicts
prior records for skin grants), so "no two simultaneously live effects
of the same kind" fails for the registry. -/
theorem speed_records_coexist_counterexample :
    ((((PowerUpManager.init.addPowerUp PUType.speed 0).1.addPowerUp
        PUType.speed 0).1.update 0).activePowerUps)
      = [PowerUp.create PUType.speed 0, PowerUp.create PUType.speed 0] := by
  have hexp : ¬ (PowerUp.create PUType.speed 0).isExpired 0 := by
    simp [PowerUp.isExpired, PowerUp.create]
  simp [PowerUpManager.init, PowerUpManager.addPowerUp, PowerUpManager.update,
    isSkinType, skinTypes, hexp]

/-- Any grant preserves "at most one active skin record": a skin grant
first evicts every skin, a non-skin grant adds no skin. -/
theorem addPowerUp_skinCount_le (m : PowerUpManager) (t : PUType) (now : ℝ)
    (h : m.skinCount ≤ 1) : ((m.addPowerUp t now).1).skinCount ≤ 1 := by
  unfold PowerUpManager.addPowerUp
  split
  · exact h
  · by_cases hs : isSkinType t
    · simp only [hs, if_true, PowerUpManager.skinCount, List.filter_append,
        List.filter_filter]
      simp [PowerUp.create, hs]
    · simp only [hs, if_false, PowerUpManager.skinCount, List.filter_append]
      simpa [PowerUp.create, hs] using h

/-- Filtering by a conjunction keeps no more elements than filtering by
the first conjunct alone. -/
theorem length_filter_and_le {α : Type} (p q : α → Bool) (l : List α) :
    (l.filter fun a => p a && q a).length ≤ (l.filter p).length := by
  induction l with
  | nil => simp
  | cons x rest ih =>
    by_cases hp : p x = true
    · by_cases hq : q x = true
      · simpa [List.filter_cons, hp, hq] using Nat.succ_le_succ ih
      · have hq' : q x = false := by simpa using hq
        simp only [List.filter_cons, hp, hq', Bool.and_false, if_neg]
        simp only [Bool.false_eq_true, if_false, if_pos rfl, List.length_cons]
        exact le_trans ih (Nat.le_succ _)
    · have hp' : p x = false := by simpa using hp
      simpa [List.filter_cons, hp'] using ih

/-- The expiry sweep preserves "at most one active skin record". -/
theorem update_skinCount_le (m : PowerUpManager) (now : ℝ)
    (h : m.skinCount ≤ 1) : (m.update now).skinCount ≤ 1 := by
  unfold PowerUpManager.update PowerUpManager.skinCount at *
  rw [List.filter_filter]
  exact le_trans (length_filter_and_le _ _ _) h

/-- Iterating grants and sweeps from the empty registry keeps at most
one active skin record. -/
theorem applyPUOps_skinCount_le (ops : List PUOp) :
    ∀ m : PowerUpManager, m.skinCount ≤ 1 → (applyPUOps m ops).skinCount ≤ 1 := by
  induction ops with
  | nil => intro m h; exact h
  | cons op rest ih =>
    intro m h
    have hstep : (applyPUOp m op).skinCount ≤ 1 := by
      cases op with
      | grant t now => exact addPowerUp_skinCount_le m t now h
      | sweep now => exact update_skinCount_le m now h
    simpa [applyPUOps, List.foldl_cons] using ih (applyPUOp m op) hstep

/-- C7: every sequence of grants and expiry sweeps leaves at most one
active skin record, and a skin grant leaves exactly one — the newly
granted one, sitting at the end of the registry. -/
theorem skin_mutual_exclusion (ops : List PUOp) (m : PowerUpManager)
    (t : PUType) (now : ℝ) (hskin : isSkinType t = true) :
    (applyPUOps PowerUpManager.init ops).skinCount ≤ 1 ∧
    ((m.addPowerUp t now).1.activePowerUps.filter fun p => isSkinType p.type)
      = [PowerUp.create t now] ∧
    (m.addPowerUp t now).1.activePowerUps.getLast? = some (PowerUp.create t now) := by
  have hnt : ¬ t = PUType.tryagain := by
    cases t <;> simp_all [isSkinType, skinTypes]
  refine ⟨applyPUOps_skinCount_le ops PowerUpManager.init (by
    simp [PowerUpManager.init, PowerUpManager.skinCount]), ?_, ?_⟩
  · unfold PowerUpManager.addPowerUp
    simp only [if_neg hnt, hskin, if_true]
    rw [List.filter_append, List.filter_filter]
    simp [PowerUp.create, hskin]
  · unfold PowerUpManager.addPowerUp
    simp only [if_neg hnt, hskin, if_true]
    simp [List.getLast?_concat]

/-- Concrete check of C7: granting pacman then saturn from a fresh
registry leaves exactly one skin record, the saturn one, last in the
registry. -/
theorem skin_mutual_exclusion_witness :
    (applyPUOps PowerUpManager.init
        [PUOp.grant PUType.pacman 0, PUOp.grant PUType.saturn 0]).skinCount ≤ 1 ∧
    (((applyPUOps PowerUpManager.init
        [PUOp.grant PUType.pacman 0]).addPowerUp PUType.saturn 0).1.activePowerUps.filter
          fun p => isSkinType p.type)
      = [PowerUp.create PUType.saturn 0] ∧
    ((applyPUOps PowerUpManager.init
        [PUOp.grant PUType.pacman 0]).addPowerUp PUType.saturn 0).1.activePowerUps.getLast?
      = some (PowerUp.create PUType.saturn 0) := by
  have h := skin_mutual_exclusion
    [PUOp.grant PUType.pacman 0, PUOp.grant PUType.saturn 0]
    (applyPUOps PowerUpManager.init [PUOp.grant PUType.pacman 0])
    PUType.saturn 0 (by rfl)
  exact h

/-- The vertical step never touches the horizontal position or the
(horizontal) velocity. -/
theorem gravityStep_horizontal (b : Ball) (dt : ℝ) :
    (b.gravityStep dt).position.x = b.position.x ∧
    (b.gravityStep dt).position.z = b.position.z ∧
    (b.gravityStep dt).velocity = b.velocity ∧
    (b.gravityStep dt).radius = b.radius ∧
    (b.gravityStep dt).isPlayer = b.isPlayer ∧
    (b.gravityStep dt).powerUpEffects = b.powerUpEffects := by
  unfold Ball.gravityStep
  split
  · dsimp only
    split <;> exact ⟨rfl, rfl, rfl, rfl, rfl, rfl⟩
  · exact ⟨rfl, rfl, rfl, rfl, rfl, rfl⟩

/-- The boundary step with `|x| > 250`: `x` is clamped to the signed
limit and `velocity.x` is flipped and dampened, whatever happens on the
z axis. -/
theorem boundaryStep_x_clamp (b : Ball) (hb : |b.position.x| > Ball.boundaryLimit) :
    (b.boundaryStep).position.x = Real.sign b.position.x * Ball.boundaryLimit ∧
    (b.boundaryStep).velocity.x = b.velocity.x * (-0.8) := by
  unfold Ball.boundaryStep
  rw [if_pos hb]
  dsimp only
  split <;> exact ⟨rfl, rfl⟩

/-- The boundary step with `|z| > 250`: `z` is clamped to the signed
limit and `velocity.z` is flipped and dampened, whatever happens on the
x axis. -/
theorem boundaryStep_z_clamp (b : Ball) (hb : |b.position.z| > Ball.boundaryLimit) :
    (b.boundaryStep).position.z = Real.sign b.position.z * Ball.boundaryLimit ∧
    (b.boundaryStep).velocity.z = b.velocity.z * (-0.8) := by
  unfold Ball.boundaryStep
  split
  · dsimp only
    rw [if_pos hb]
    exact ⟨rfl, rfl⟩
  · dsimp only
    rw [if_pos hb]
    exact ⟨rfl, rfl⟩

/-- The size-boost animation step never touches position or velocity. -/
theorem updateSizeAnimation_motion (b : Ball) :
    b.updateSizeAnimation.position = b.position ∧
    b.updateSizeAnimation.velocity = b.velocity := by
  unfold Ball.updateSizeAnimation
  cases b.powerUpEffects.targetRadius
  · exact ⟨rfl, rfl⟩
  · dsimp only
    split <;> exact ⟨rfl, rfl⟩

/-- One tick moves the horizontal position by the post-physics velocity
times the time step, and keeps that velocity. -/
theorem update_integrates_after_physics (b : Ball) (dt : ℝ) :
    (b.update dt).position.x
      = (b.applyPhysics dt).position.x + (b.applyPhysics dt).velocity.x * dt ∧
    (b.update dt).position.z
      = (b.applyPhysics dt).position.z + (b.applyPhysics dt).velocity.z * dt ∧
    (b.update dt).velocity = (b.applyPhysics dt).velocity := by
  unfold Ball.update
  refine ⟨?_, ?_, ?_⟩ <;>
    simp [(updateSizeAnimation_motion _).1, (updateSizeAnimation_motion _).2,
      Vec3.add, Vec3.scale]

/-- C2 (amended): a ball whose position exceeds the arena half-width at
the start of a tick is clamped to the boundary *inside* `applyPhysics`,
with the velocity component set to `-0.8` times its already-damped
value; the same tick's subsequent integration then moves the position
off the boundary again by `velocity * dt`, so the tick does not end
exactly on the boundary unless the bounced velocity is zero.
Symmetrically for `-L` and for the z axis. -/
theorem boundary_clamp_inside_physics (b : Ball) (dt : ℝ) :
    (b.position.x > Ball.boundaryLimit →
      (b.applyPhysics dt).position.x = Ball.boundaryLimit ∧
      (b.applyPhysics dt).velocity.x
        = -(0.8) * ((if b.isPlayer then (0.97 : ℝ) else 0.95) * b.velocity.x) ∧
      (b.update dt).position.x
        = Ball.boundaryLimit + (b.applyPhysics dt).velocity.x * dt) ∧
    (b.position.x < -Ball.boundaryLimit →
      (b.applyPhysics dt).position.x = -Ball.boundaryLimit ∧
      (b.applyPhysics dt).velocity.x
        = -(0.8) * ((if b.isPlayer then (0.97 : ℝ) else 0.95) * b.velocity.x) ∧
      (b.update dt).position.x
        = -Ball.boundaryLimit + (b.applyPhysics dt).velocity.x * dt) ∧
    (b.position.z > Ball.boundaryLimit →
      (b.applyPhysics dt).position.z = Ball.boundaryLimit ∧
      (b.applyPhysics dt).velocity.z
        = -(0.8) * ((if b.isPlayer then (0.97 : ℝ) else 0.95) * b.velocity.z) ∧
      (b.update dt).position.z
        = Ball.boundaryLimit + (b.applyPhysics dt).velocity.z * dt) ∧
    (b.position.z < -Ball.boundaryLimit →
      (b.applyPhysics dt).position.z = -Ball.boundaryLimit ∧
      (b.applyPhysics dt).velocity.z
        = -(0.8) * ((if b.isPlayer then (0.97 : ℝ) else 0.95) * b.velocity.z) ∧
      (b.update dt).position.z
        = -Ball.boundaryLimit + (b.applyPhysics dt).velocity.z * dt) := by
  have hL : (0 : ℝ) < Ball.boundaryLimit := by norm_num [Ball.boundaryLimit]
  have hg := gravityStep_horizontal (b.dampingStep) dt
  have hgx : ((b.dampingStep).gravityStep dt).position.x = b.position.x := hg.1
  have hgz : ((b.dampingStep).gravityStep dt).position.z = b.position.z := hg.2.1
  have hgv : ((b.dampingStep).gravityStep dt).velocity = b.velocity.scale
      (if b.isPlayer then (0.97 : ℝ) else 0.95) := hg.2.2.1
  refine ⟨?_, ?_, ?_, ?_⟩
  · intro hx
    have habs : |((b.dampingStep).gravityStep dt).position.x| > Ball.boundaryLimit := by
      rw [hgx, abs_of_pos (lt_trans hL hx)]; exact hx
    have hc := boundaryStep_x_clamp _ habs
    have hsign : Real.sign ((b.dampingStep).gravityStep dt).position.x = 1 := by
      rw [hgx]; exact Real.sign_of_pos (lt_trans hL hx)
    have hpos : (b.applyPhysics dt).position.x = Ball.boundaryLimit := by
      rw [Ball.applyPhysics, hc.1, hsign, one_mul]
    have hvel : (b.applyPhysics dt).velocity.x
        = -(0.8) * ((if b.isPlayer then (0.97 : ℝ) else 0.95) * b.velocity.x) := by
      rw [Ball.applyPhysics, hc.2, hgv]
      dsimp [Vec3.scale]; ring
    exact ⟨hpos, hvel, by
      rw [(update_integrates_after_physics b dt).1, hpos]⟩
  · intro hx
    have hneg : b.position.x < 0 := lt_trans hx (by linarith)
    have habs : |((b.dampingStep).gravityStep dt).position.x| > Ball.boundaryLimit := by
      rw [hgx, abs_of_neg hneg]; linarith
    have hc := boundaryStep_x_clamp _ habs
    have hsign : Real.sign ((b.dampingStep).gravityStep dt).position.x = -1 := by
      rw [hgx]; exact Real.sign_of_neg hneg
    have hpos : (b.applyPhysics dt).position.x = -Ball.boundaryLimit := by
      rw [Ball.applyPhysics, hc.1, hsign]; ring
    have hvel : (b.applyPhysics dt).velocity.x
        = -(0.8) * ((if b.isPlayer then (0.97 : ℝ) else 0.95) * b.velocity.x) := by
      rw [Ball.applyPhysics, hc.2, hgv]
      dsimp [Vec3.scale]; ring
    exact ⟨hpos, hvel, by
      rw [(update_integrates_after_physics b dt).1, hpos]⟩
  · intro hz
    have habs : |((b.dampingStep).gravityStep dt).position.z| > Ball.boundaryLimit := by
      rw [hgz, abs_of_pos (lt_trans hL hz)]; exact hz
    have hc := boundaryStep_z_clamp _ habs
    have hsign : Real.sign ((b.dampingStep).gravityStep dt).position.z = 1 := by
      rw [hgz]; exact Real.sign_of_pos (lt_trans hL hz)
    have hpos : (b.applyPhysics dt).position.z = Ball.boundaryLimit := by
      rw [Ball.applyPhysics, hc.1, hsign, one_mul]
    have hvel : (b.applyPhysics dt).velocity.z
        = -(0.8) * ((if b.isPlayer then (0.97 : ℝ) else 0.95) * b.velocity.z) := by
      rw [Ball.applyPhysics, hc.2, hgv]
      dsimp [Vec3.scale]; ring
    exact ⟨hpos, hvel, by
      rw [(update_integrates_after_physics b dt).2.1, hpos]⟩
  · intro hz
    have hneg : b.position.z < 0 := lt_trans hz (by linarith)
    have habs : |((b.dampingStep).gravityStep dt).position.z| > Ball.boundaryLimit := by
      rw [hgz, abs_of_neg hneg]; linarith
    have hc := boundaryStep_z_clamp _ habs
    have hsign : Real.sign ((b.dampingStep).gravityStep dt).position.z = -1 := by
      rw [hgz]; exact Real.sign_of_neg hneg
    have hpos : (b.applyPhysics dt).position.z = -Ball.boundaryLimit := by
      rw [Ball.applyPhysics, hc.1, hsign]; ring
    have hvel : (b.applyPhysics dt).velocity.z
        = -(0.8) * ((if b.isPlayer then (0.97 : ℝ) else 0.95) * b.velocity.z) := by
      rw [Ball.applyPhysics, hc.2, hgv]
      dsimp [Vec3.scale]; ring
    exact ⟨hpos, hvel, by
      rw [(update_integrates_after_physics b dt).2.1, hpos]⟩

/-- A concrete AI ball driven past the +x wall: position (260, 3, 0),
velocity (10, 0, 0), radius 3. -/
def oobBall : Ball := { Ball.create 1 260 3 0 3 with velocity := ⟨10, 0, 0⟩ }

/-- Concrete check of C2's amended statement on `oobBall`. -/
theorem boundary_clamp_inside_physics_witness :
    (oobBall.applyPhysics (1 / 60)).position.x = Ball.boundaryLimit ∧
    (oobBall.applyPhysics (1 / 60)).velocity.x
      = -(0.8) * ((if oobBall.isPlayer then (0.97 : ℝ) else 0.95) * oobBall.velocity.x) ∧
    (oobBall.update (1 / 60)).position.x
      = Ball.boundaryLimit + (oobBall.applyPhysics (1 / 60)).velocity.x * (1 / 60) :=
  (boundary_clamp_inside_physics oobBall (1 / 60)).1
    (by norm_num [oobBall, Ball.create, Ball.boundaryLimit])

/-- Counterexample to C2 as stated: the ball at x = 260 with velocity 10
does NOT end the tick at x = 250 (the clamp happens before the tick's
integration, which moves it off the wall again), and its end-of-tick
velocity is not -0.8 times the prior velocity (the tick's damping is
applied first, giving -0.8 * 0.95 * 10 = -7.6). -/
theorem boundary_reflection_counterexample :
    (oobBall.update (1 / 60)).position.x ≠ Ball.boundaryLimit ∧
    (oobBall.update (1 / 60)).velocity.x ≠ -(0.8) * 10 := by
  have hsign : Real.sign (260 : ℝ) = 1 := Real.sign_of_pos (by norm_num)
  constructor <;>
    norm_num [oobBall, Ball.create, Ball.update, Ball.applyPhysics,
      Ball.dampingStep, Ball.gravityStep, Ball.boundaryStep,
      Ball.updateSizeAnimation, Ball.boundaryLimit, PowerUpEffects.init,
      Vec3.scale, Vec3.add, hsign]

/-- C8: the per-tick AI decision follows the strict priority
flee > hunt > wander.  A nearest threat yields the avoid force away
from it; otherwise an ideal target yields the seek force towards it;
otherwise a draw below the fixed probability yields the small random
horizontal impulse, and in the remaining case no force at all.  The
seek force 2.2 strictly exceeds the avoid force 2.0. -/
theorem ai_priority_flee_hunt_wander (ball : Ball) (allBalls : List Ball)
    (rand rx rz : ℝ) :
    (∀ t, BallAI.findNearestThreat ball allBalls = some t →
      updateAIBall ball allBalls rand rx rz
        = ball.applyForce
            ((ball.position.sub t.position).normalize.scale BallAI.avoidForce)) ∧
    (BallAI.findNearestThreat ball allBalls = none →
      ∀ g, BallAI.findIdealTarget ball allBalls = some g →
        updateAIBall ball allBalls rand rx rz
          = ball.applyForce
              ((g.position.sub ball.position).normalize.scale BallAI.seekForce)) ∧
    (BallAI.findNearestThreat ball allBalls = none →
      BallAI.findIdealTarget ball allBalls = none →
      rand < BallAI.randomWalkChance →
      updateAIBall ball allBalls rand rx rz
        = ball.applyForce
            ⟨(rx - 0.5) * BallAI.randomForce, 0, (rz - 0.5) * BallAI.randomForce⟩) ∧
    (BallAI.findNearestThreat ball allBalls = none →
      BallAI.findIdealTarget ball allBalls = none →
      ¬ rand < BallAI.randomWalkChance →
      updateAIBall ball allBalls rand rx rz = ball) ∧
    BallAI.seekForce > BallAI.avoidForce := by
  refine ⟨?_, ?_, ?_, ?_, by norm_num [BallAI.seekForce, BallAI.avoidForce]⟩
  · intro t ht
    unfold updateAIBall
    rw [ht]
    rfl
  · intro hn g hg
    unfold updateAIBall
    rw [hn, hg]
    rfl
  · intro hn hg hr
    unfold updateAIBall
    rw [hn, hg, if_pos hr]
    rfl
  · intro hn hg hr
    unfold updateAIBall
    rw [hn, hg, if_neg hr]

/-- A concrete radius-5 AI ball at the origin, prey in the C8 check. -/
def preyBall : Ball := Ball.create 1 0 0 0 5

/-- A concrete radius-10 ball at (3, 0, 4) — distance 5 from the prey,
well inside the threat range. -/
def threatBall : Ball := Ball.create 2 3 0 4 10

/-- The concrete threat scan finds `threatBall`. -/
theorem findNearestThreat_concrete :
    BallAI.findNearestThreat preyBall [threatBall, preyBall] = some threatBall := by
  have hd : preyBall.distanceTo threatBall = 5 := by
    unfold Ball.distanceTo Vec3.distanceTo Vec3.sub Vec3.length preyBall
      threatBall Ball.create
    rw [show ((0 - 3 : ℝ) ^ 2 + (0 - 0 : ℝ) ^ 2 + (0 - 4 : ℝ) ^ 2) = 5 ^ 2 by norm_num,
      Real.sqrt_sq (by norm_num)]
  have hc1 : ¬ (threatBall.id = preyBall.id ∨ ¬ threatBall.canEat preyBall) := by
    simp [threatBall, preyBall, Ball.create, Ball.canEat]
    norm_num
  have hc2 : ((preyBall.distanceTo threatBall : ℝ) : WithTop ℝ) < (⊤ : WithTop ℝ) ∧
      preyBall.distanceTo threatBall < BallAI.threatRange := by
    rw [hd]
    exact ⟨WithTop.coe_lt_top _, by norm_num [BallAI.threatRange]⟩
  unfold BallAI.findNearestThreat
  rw [BallAI.findNearestThreatGo, if_neg hc1]
  dsimp only
  rw [if_pos hc2, BallAI.findNearestThreatGo, if_pos (Or.inl rfl),
    BallAI.findNearestThreatGo]

/-- Concrete check of C8: with `threatBall` in range, the decision is
the avoid force away from it. -/
theorem ai_priority_flee_hunt_wander_witness :
    updateAIBall preyBall [threatBall, preyBall] 0.5 0.3 0.7
      = preyBall.applyForce
          ((preyBall.position.sub threatBall.position).normalize.scale
            BallAI.avoidForce) :=
  (ai_priority_flee_hunt_wander preyBall [threatBall, preyBall] 0.5 0.3 0.7).1
    threatBall findNearestThreat_concrete

/-- Once the ideal-target scan holds an incumbent, it never returns to
null. -/
theorem findIdealTargetGo_isSome (ball : Ball) (l : List Ball) :
    ∀ (t : Ball) (largest : ℝ) (short : WithTop ℝ),
      (BallAI.findIdealTargetGo ball l (some t) largest short).isSome = true := by
  induction l with
  | nil =>
    intro t largest short
    simp [BallAI.findIdealTargetGo]
  | cons o rest ih =>
    intro t largest short
    unfold BallAI.findIdealTargetGo
    split
    · exact ih t largest short
    · dsimp only
      split
      · exact ih t largest short
      · split
        · exact ih o o.radius _
        · exact ih t largest short

/-- Whatever the scan returns is either the incumbent it started with
or an eligible ball of the scanned list: distinct from the scanning
ball, eatable by it, and within the ideal-target range. -/
theorem findIdealTargetGo_eligible (ball : Ball) (l : List Ball) :
    ∀ (acc : Option Ball) (largest : ℝ) (short : WithTop ℝ) (u : Ball),
      BallAI.findIdealTargetGo ball l acc largest short = some u →
      acc = some u ∨ (u ∈ l ∧ u.id ≠ ball.id ∧ ball.canEat u ∧
        ball.distanceTo u ≤ BallAI.idealTargetRange) := by
  induction l with
  | nil =>
    intro acc largest short u h
    left
    simpa [BallAI.findIdealTargetGo] using h
  | cons o rest ih =>
    intro acc largest short u h
    unfold BallAI.findIdealTargetGo at h
    split at h
    · rcases ih _ _ _ _ h with h1 | h2
      · exact Or.inl h1
      · exact Or.inr ⟨List.mem_cons_of_mem _ h2.1, h2.2⟩
    · next hskip =>
      push_neg at hskip
      dsimp only at h
      split at h
      · rcases ih _ _ _ _ h with h1 | h2
        · exact Or.inl h1
        · exact Or.inr ⟨List.mem_cons_of_mem _ h2.1, h2.2⟩
      · next hfar =>
        split at h
        · rcases ih _ _ _ _ h with h1 | h2
          · cases h1
            exact Or.inr ⟨List.mem_cons_self o rest, hskip.1, hskip.2,
              le_of_not_lt hfar⟩
          · exact Or.inr ⟨List.mem_cons_of_mem _ h2.1, h2.2⟩
        · rcases ih _ _ _ _ h with h1 | h2
          · exact Or.inl h1
          · exact Or.inr ⟨List.mem_cons_of_mem _ h2.1, h2.2⟩

/-- When every radius is positive, the scan from its initial state
returns null exactly when no other ball is eatable and within range. -/
theorem findIdealTargetGo_none_iff (ball : Ball) :
    ∀ l : List Ball, (∀ o ∈ l, 0 < o.radius) →
      (BallAI.findIdealTargetGo ball l none 0 ⊤ = none ↔
        ∀ o ∈ l, o.id ≠ ball.id → ball.canEat o →
          ball.distanceTo o > BallAI.idealTargetRange) := by
  intro l
  induction l with
  | nil =>
    intro _
    simp [BallAI.findIdealTargetGo]
  | cons o rest ih =>
    intro hpos
    have ihr := ih (fun p hp => hpos p (List.mem_cons_of_mem _ hp))
    unfold BallAI.findIdealTargetGo
    split
    · next hskip =>
      rw [ihr]
      constructor
      · intro hall p hp hid hcan
        rcases List.mem_cons.mp hp with rfl | hmem
        · rcases hskip with h1 | h1
          · exact absurd h1 hid
          · exact absurd hcan h1
        · exact hall p hmem hid hcan
      · intro hall p hp hid hcan
        exact hall p (List.mem_cons_of_mem _ hp) hid hcan
    · next hskip =>
      push_neg at hskip
      dsimp only
      split
      · next hfar =>
        rw [ihr]
        constructor
        · intro hall p hp hid hcan
          rcases List.mem_cons.mp hp with rfl | hmem
          · exact hfar
          · exact hall p hmem hid hcan
        · intro hall p hp hid hcan
          exact hall p (List.mem_cons_of_mem _ hp) hid hcan
      · next hfar =>
        rw [if_pos (Or.inl (hpos o (List.mem_cons_self o rest)))]
        constructor
        · intro hnone
          have hs := findIdealTargetGo_isSome ball rest o o.radius
            ((ball.distanceTo o : ℝ) : WithTop ℝ)
          rw [hnone] at hs
          simp at hs
        · intro hall
          exact absurd (hall o (List.mem_cons_self o rest) hskip.1 hskip.2) hfar

/-- C9 (amended): with all radii positive, `findIdealTarget` returns
null exactly when no other ball is eatable and within the ideal-target
range, and any ball it returns is eligible (distinct, eatable, within
range).  Which eligible ball is returned follows the sequential scan:
a candidate replaces the incumbent only when its radius beats the
recorded largest or lies within 0.1 of it while being strictly closer —
successive within-epsilon replacements can leave the final radius more
than 0.1 below the true in-range maximum. -/
theorem findIdealTarget_scan_guarantees (ball : Ball) (allBalls : List Ball)
    (hpos : ∀ o ∈ allBalls, 0 < o.radius) :
    (∀ t, BallAI.findIdealTarget ball allBalls = some t →
      t ∈ allBalls ∧ t.id ≠ ball.id ∧ ball.canEat t ∧
      ball.distanceTo t ≤ BallAI.idealTargetRange) ∧
    (BallAI.findIdealTarget ball allBalls = none ↔
      ∀ o ∈ allBalls, o.id ≠ ball.id → ball.canEat o →
        ball.distanceTo o > BallAI.idealTargetRange) := by
  constructor
  · intro t ht
    rcases findIdealTargetGo_eligible ball allBalls none 0 ⊤ t ht with h | h
    · cases h
    · exact h
  · exact findIdealTargetGo_none_iff ball allBalls hpos

/-- Distance between two freshly constructed balls, by definition. -/
theorem create_distanceTo (i1 i2 : ℕ) (x1 y1 z1 r1 x2 y2 z2 r2 : ℝ) :
    (Ball.create i1 x1 y1 z1 r1).distanceTo (Ball.create i2 x2 y2 z2 r2)
      = Real.sqrt ((x1 - x2) ^ 2 + (y1 - y2) ^ 2 + (z1 - z2) ^ 2) := rfl

/-- The hunting ball of the C9 scan example: radius 10 at the origin. -/
def idealSelf : Ball := Ball.create 10 0 0 0 10

/-- Radius 5.18 at distance 3 — the largest eatable ball in range. -/
def idealA : Ball := Ball.create 11 3 0 0 5.18

/-- Radius 5.09 at distance 2 — within 0.1 of the incumbent 5.18 and
closer, so it displaces it. -/
def idealB : Ball := Ball.create 12 0 0 2 5.09

/-- Radius 5 at distance 1 — within 0.1 of the incumbent 5.09 and
closer, so it displaces it in turn. -/
def idealC : Ball := Ball.create 13 1 0 0 5

/-- Concrete distance from the hunter to `idealA`. -/
theorem idealSelf_dist_A : idealSelf.distanceTo idealA = 3 := by
  unfold idealSelf idealA
  rw [create_distanceTo,
    show ((0 : ℝ) - 3) ^ 2 + ((0 : ℝ) - 0) ^ 2 + ((0 : ℝ) - 0) ^ 2 = 3 ^ 2 by norm_num,
    Real.sqrt_sq (by norm_num)]

/-- Concrete distance from the hunter to `idealB`. -/
theorem idealSelf_dist_B : idealSelf.distanceTo idealB = 2 := by
  unfold idealSelf idealB
  rw [create_distanceTo,
    show ((0 : ℝ) - 0) ^ 2 + ((0 : ℝ) - 0) ^ 2 + ((0 : ℝ) - 2) ^ 2 = 2 ^ 2 by norm_num,
    Real.sqrt_sq (by norm_num)]

/-- Concrete distance from the hunter to `idealC`. -/
theorem idealSelf_dist_C : idealSelf.distanceTo idealC = 1 := by
  unfold idealSelf idealC
  rw [create_distanceTo,
    show ((0 : ℝ) - 1) ^ 2 + ((0 : ℝ) - 0) ^ 2 + ((0 : ℝ) - 0) ^ 2 = 1 ^ 2 by norm_num,
    Real.sqrt_sq (by norm_num)]

/-- Stepping the ideal-target scan through the concrete list: the
5.18-ball is selected, then displaced by the 5.09-ball (within 0.1 and
closer), which is displaced by the 5-ball (within 0.1 and closer). -/
theorem findIdealTarget_concrete_eval :
    BallAI.findIdealTarget idealSelf [idealA, idealB, idealC] = some idealC := by
  have hc1 : ¬ (idealA.id = idealSelf.id ∨ ¬ idealSelf.canEat idealA) := by
    simp only [idealA, idealSelf, Ball.create, Ball.canEat]
    norm_num
  have hc2 : ¬ (idealB.id = idealSelf.id ∨ ¬ idealSelf.canEat idealB) := by
    simp only [idealB, idealSelf, Ball.create, Ball.canEat]
    norm_num
  have hc3 : ¬ (idealC.id = idealSelf.id ∨ ¬ idealSelf.canEat idealC) := by
    simp only [idealC, idealSelf, Ball.create, Ball.canEat]
    norm_num
  have hfarA : ¬ idealSelf.distanceTo idealA > BallAI.idealTargetRange := by
    rw [idealSelf_dist_A]
    norm_num [BallAI.idealTargetRange]
  have hfarB : ¬ idealSelf.distanceTo idealB > BallAI.idealTargetRange := by
    rw [idealSelf_dist_B]
    norm_num [BallAI.idealTargetRange]
  have hfarC : ¬ idealSelf.distanceTo idealC > BallAI.idealTargetRange := by
    rw [idealSelf_dist_C]
    norm_num [BallAI.idealTargetRange]
  have hselA : idealA.radius > 0 ∨
      (|idealA.radius - 0| < 0.1 ∧
        ((idealSelf.distanceTo idealA : ℝ) : WithTop ℝ) < (⊤ : WithTop ℝ)) :=
    Or.inl (by norm_num [idealA, Ball.create])
  have hselB : idealB.radius > idealA.radius ∨
      (|idealB.radius - idealA.radius| < 0.1 ∧
        ((idealSelf.distanceTo idealB : ℝ) : WithTop ℝ)
          < ((idealSelf.distanceTo idealA : ℝ) : WithTop ℝ)) := by
    right
    constructor
    · rw [show idealB.radius - idealA.radius = -(0.09 : ℝ) by
        simp only [idealB, idealA, Ball.create]; norm_num, abs_neg,
        abs_of_nonneg (by norm_num : (0 : ℝ) ≤ 0.09)]
      norm_num
    · rw [idealSelf_dist_A, idealSelf_dist_B]
      exact WithTop.coe_lt_coe.mpr (by norm_num)
  have hselC : idealC.radius > idealB.radius ∨
      (|idealC.radius - idealB.radius| < 0.1 ∧
        ((idealSelf.distanceTo idealC : ℝ) : WithTop ℝ)
          < ((idealSelf.distanceTo idealB : ℝ) : WithTop ℝ)) := by
    right
    constructor
    · rw [show idealC.radius - idealB.radius = -(0.09 : ℝ) by
        simp only [idealC, idealB, Ball.create]; norm_num, abs_neg,
        abs_of_nonneg (by norm_num : (0 : ℝ) ≤ 0.09)]
      norm_num
    · rw [idealSelf_dist_B, idealSelf_dist_C]
      exact WithTop.coe_lt_coe.mpr (by norm_num)
  unfold BallAI.findIdealTarget
  rw [BallAI.findIdealTargetGo, if_neg hc1]
  dsimp only
  rw [if_neg hfarA, if_pos hselA, BallAI.findIdealTargetGo, if_neg hc2]
  dsimp only
  rw [if_neg hfarB, if_pos hselB, BallAI.findIdealTargetGo, if_neg hc3]
  dsimp only
  rw [if_neg hfarC, if_pos hselC, BallAI.findIdealTargetGo]

/-- Counterexample to C9 as stated: the scan returns the radius-5 ball
even though the eligible radius-5.18 ball is in range and exceeds it by
0.18 > 0.1 — the returned radius is neither the in-range maximum nor
within the 0.1 epsilon of it. -/
theorem idealTarget_not_largest_counterexample :
    BallAI.findIdealTarget idealSelf [idealA, idealB, idealC] = some idealC ∧
    idealA.id ≠ idealSelf.id ∧ idealSelf.canEat idealA ∧
    idealSelf.distanceTo idealA ≤ BallAI.idealTargetRange ∧
    idealA.radius - idealC.radius > 0.1 := by
  refine ⟨findIdealTarget_concrete_eval, ?_, ?_, ?_, ?_⟩
  · simp [idealA, idealSelf, Ball.create]
  · simp only [Ball.canEat, idealA, idealSelf, Ball.create]
    norm_num
  · rw [idealSelf_dist_A]
    norm_num [BallAI.idealTargetRange]
  · simp only [idealA, idealC, Ball.create]
    norm_num

/-- Concrete check of C9's amended statement: the returned ball is
eligible — in the list, distinct, eatable, within range. -/
theorem findIdealTarget_scan_guarantees_witness :
    idealC ∈ [idealA, idealB, idealC] ∧ idealC.id ≠ idealSelf.id ∧
    idealSelf.canEat idealC ∧
    idealSelf.distanceTo idealC ≤ BallAI.idealTargetRange := by
  refine (findIdealTarget_scan_guarantees idealSelf [idealA, idealB, idealC]
    ?_).1 idealC findIdealTarget_concrete_eval
  intro o ho
  fin_cases ho <;> norm_num [idealA, idealB, idealC, Ball.create]

/-- Base equation of the player pass. -/
theorem playerPassRev_nil (p : Ball) (s : ℤ) :
    playerPassRev p [] s = (p, [], s, false) := rfl

/-- Step equation of the player pass, one enemy at a time. -/
theorem playerPassRev_cons (p e : Ball) (rest : List Ball) (s : ℤ) :
    playerPassRev p (e :: rest) s
      = if p.isColliding e then
          if p.canEat e then
            playerPassRev (p.eat e).1 rest (s + (p.eat e).2)
          else if e.canEat p then (p, e :: rest, s, true)
          else ((playerPassRev p rest s).1, e :: (playerPassRev p rest s).2.1,
                (playerPassRev p rest s).2.2)
        else ((playerPassRev p rest s).1, e :: (playerPassRev p rest s).2.1,
              (playerPassRev p rest s).2.2) := rfl

/-- When the player pass reaches an enemy that collides with the player
and can eat it (and cannot itself be eaten), it stops at once: the
game-over flag is raised and that enemy and everything after it are
left untouched. -/
theorem playerPassRev_fatal_head (p e : Ball) (rest : List Ball) (s : ℤ)
    (hcol : p.isColliding e) (hne : ¬ p.canEat e) (hfatal : e.canEat p) :
    playerPassRev p (e :: rest) s = (p, e :: rest, s, true) := by
  rw [playerPassRev_cons, if_pos hcol, if_neg hne, if_pos hfatal]

/-- Splitting the player pass at a prefix that completes without a
fatal collision: the remainder is processed from the grown player and
accumulated score, with the prefix's survivors in front. -/
theorem playerPassRev_append (pre : List Ball) :
    ∀ (p : Ball) (l2 : List Ball) (s : ℤ) (p' : Ball) (kept : List Ball) (s' : ℤ),
      playerPassRev p pre s = (p', kept, s', false) →
      playerPassRev p (pre ++ l2) s
        = ((playerPassRev p' l2 s').1,
           kept ++ (playerPassRev p' l2 s').2.1,
           (playerPassRev p' l2 s').2.2) := by
  induction pre with
  | nil =>
    intro p l2 s p' kept s' h
    rw [playerPassRev_nil] at h
    simp only [Prod.mk.injEq] at h
    obtain ⟨rfl, rfl, rfl, -⟩ := h
    simp
  | cons e pre ih =>
    intro p l2 s p' kept s' h
    rw [playerPassRev_cons] at h
    rw [List.cons_append, playerPassRev_cons]
    by_cases hcol : p.isColliding e
    · rw [if_pos hcol] at h ⊢
      by_cases heat : p.canEat e
      · rw [if_pos heat] at h ⊢
        exact ih _ _ _ _ _ _ h
      · rw [if_neg heat] at h ⊢
        by_cases hfat : e.canEat p
        · rw [if_pos hfat] at h
          exact absurd (congrArg (fun r => r.2.2.2) h) (by simp)
        · rw [if_neg hfat] at h ⊢
          rcases hps : playerPassRev p pre s with ⟨p1, k1, s1, g1⟩
          rw [hps] at h
          simp only [Prod.mk.injEq] at h
          obtain ⟨rfl, rfl, rfl, rfl⟩ := h
          rw [ih _ _ _ _ _ _ hps]
          simp
    · rw [if_neg hcol] at h ⊢
      rcases hps : playerPassRev p pre s with ⟨p1, k1, s1, g1⟩
      rw [hps] at h
      simp only [Prod.mk.injEq] at h
      obtain ⟨rfl, rfl, rfl, rfl⟩ := h
      rw [ih _ _ _ _ _ _ hps]
      simp

/-- C6: if the collision pass, having processed the higher-indexed
enemies without a fatal hit (growing the player to `p'` and score to
`s'`), reaches an enemy that collides with the player and can eat it,
then checkCollisions ends the game immediately: the flag is set and the
remaining enemies — including the whole enemy-versus-enemy phase — are
left unprocessed.  From a game-over state the tick body is skipped
entirely, and only an explicit restart resumes: it clears the agents to
the fresh seed population, recreates the player, and resets score and
flag. -/
theorem fatal_collision_gameOver (st : GameState) (p p' e : Ball)
    (pre rest kept : List Ball) (s' : ℤ) (st2 : GameState)
    (inp : TickInputs) (seed : List Ball)
    (hgo : st.gameOver = false) (hp : st.player = some p)
    (hrev : st.enemies.reverse = pre ++ e :: rest)
    (hpre : playerPassRev p pre st.score = (p', kept, s', false))
    (hcol : p'.isColliding e) (hne : ¬ p'.canEat e) (hfatal : e.canEat p') :
    checkCollisions st
      = { st with player := some p', enemies := (kept ++ e :: rest).reverse,
                  score := s', gameOver := true } ∧
    (st2.gameOver = true → tick st2 inp = st2) ∧
    restart st2 seed
      = { player := some initialPlayer, enemies := seed, score := 0,
          gameOver := false, lastSpawnTime := 0 } := by
  refine ⟨?_, fun h => by unfold tick; rw [if_pos h], rfl⟩
  have hpass : playerPassRev p (pre ++ e :: rest) st.score
      = (p', kept ++ e :: rest, s', true) := by
    rw [playerPassRev_append pre p (e :: rest) st.score p' kept s' hpre,
      playerPassRev_fatal_head p' e rest s' hcol hne hfatal]
  unfold checkCollisions
  rw [hgo, hp]
  dsimp only
  rw [hrev, hpass]
  rfl

/-- The controlled ball of the C6 scenario: radius 15 at the origin. -/
def fatalPlayer : Ball := { Ball.create 0 0 0 0 15 with isPlayer := true }

/-- The enemy of the C6 scenario: radius 20, overlapping the player. -/
def fatalEnemy : Ball := Ball.create 5 0 0 0 20

/-- The game state of the C6 scenario just before the collision pass. -/
def fatalState : GameState :=
  { player := some fatalPlayer, enemies := [fatalEnemy], score := 100,
    gameOver := false, lastSpawnTime := 0 }

/-- A concrete tick input: no control force, zero draws, the fatal
enemy as the would-be spawn. -/
def trivialInputs : TickInputs :=
  { controlForce := none
    aiRand := fun _ => 0
    aiRx := fun _ => 0
    aiRz := fun _ => 0
    now := 0
    spawnBall := fatalEnemy }

/-- Concrete check of C6: the radius-20 enemy touching the radius-15
player flips the state to game over with everything else intact, the
game-over state absorbs ticks, and restart re-seeds. -/
theorem fatal_collision_gameOver_witness :
    checkCollisions fatalState
      = { fatalState with
            player := some fatalPlayer,
            enemies := (([] : List Ball) ++ fatalEnemy :: []).reverse,
            score := 100, gameOver := true } ∧
    ((checkCollisions fatalState).gameOver = true →
      tick (checkCollisions fatalState) trivialInputs = checkCollisions fatalState) ∧
    restart (checkCollisions fatalState) [fatalEnemy]
      = { player := some initialPlayer, enemies := [fatalEnemy], score := 0,
          gameOver := false, lastSpawnTime := 0 } := by
  have hcol : fatalPlayer.isColliding fatalEnemy := by
    unfold Ball.isColliding Ball.distanceTo Vec3.distanceTo Vec3.length
      Vec3.sub fatalPlayer fatalEnemy Ball.create
    rw [show ((0 : ℝ) - 0) ^ 2 + ((0 : ℝ) - 0) ^ 2 + ((0 : ℝ) - 0) ^ 2 = 0 by
      norm_num, Real.sqrt_zero]
    norm_num
  exact fatal_collision_gameOver fatalState fatalPlayer fatalPlayer fatalEnemy
    [] [] [] 100 (checkCollisions fatalState) trivialInputs [fatalEnemy]
    rfl rfl rfl rfl hcol
    (by simp only [Ball.canEat, fatalPlayer, fatalEnemy, Ball.create]; norm_num)
    (by simp only [Ball.canEat, fatalPlayer, fatalEnemy, Ball.create]; norm_num)

end BallSim
